import Mathlib

/-!
Verification development for the ClawdBotWorker core: the Cloudflare Access
token verifier (`src/auth/jwt.ts`) and the provider environment resolver
(`buildEnvVars`, specified in section 4.2 of the design document and
exercised by `src/gateway/env.test.ts`).

Strings are handled through their underlying character lists, with small
boolean helpers standing in for the JavaScript string operations used by
the source (startsWith, endsWith, the anchored regex replaces).
-/

namespace ClawdBot

/-- Boolean test that the first character list is an initial segment of the
second; stands in for JavaScript `String.startsWith` and the anchored
regex `^...`. -/
def isPre : List Char → List Char → Bool
  | [], _ => true
  | _ :: _, [] => false
  | a :: as, b :: bs => a == b && isPre as bs

/-- Boolean test that the first character list is a final segment of the
second; stands in for JavaScript `String.endsWith`. -/
def isSuf (p l : List Char) : Bool :=
  isPre p.reverse l.reverse

/-- Character-list form of the literal `http://`. -/
def httpScheme : List Char := ['h', 't', 't', 'p', ':', '/', '/']

/-- Character-list form of the literal `https://`. -/
def httpsScheme : List Char := ['h', 't', 't', 'p', 's', ':', '/', '/']

/-- Model of the regex replace `/^https?:\/\//` with the empty string: a
single leading `http://` or `https://` is removed, anything else is kept. -/
def stripScheme (s : String) : String :=
  if isPre httpScheme s.data then ⟨s.data.drop 7⟩
  else if isPre httpsScheme s.data then ⟨s.data.drop 8⟩
  else s

/-- Model of the regex replace `/\/+$/` with the empty string: every
trailing `/` is removed. -/
def stripTrailingSlashes (s : String) : String :=
  ⟨(s.data.reverse.dropWhile (fun c => c == '/')).reverse⟩

/-- True when the string begins with `http://` or `https://`. -/
def startsWithScheme (s : String) : Bool :=
  isPre httpScheme s.data || isPre httpsScheme s.data

/-- Translation of `normalizeTeamDomain` from `src/auth/jwt.ts`: strip one
leading scheme, strip trailing slashes, and append
`.cloudflareaccess.com` when the result has no dot. -/
def normalizeTeamDomain (teamDomain : String) : String :=
  let domain := stripTrailingSlashes (stripScheme teamDomain)
  if !(domain.data.contains '.') then domain ++ ".cloudflareaccess.com"
  else domain

/-- Removal of all trailing slashes written the way the specification
narrates it (a fold from the right that discards slashes until the first
kept character), used as the claim-side formulation of normalization. -/
def dropTrailingSlashesSpec (l : List Char) : List Char :=
  l.foldr (fun c acc => if acc.isEmpty && c == '/' then [] else c :: acc) []

/-- Claim-side restatement of team-domain normalization, following the
wording of the specification sentence for C1. -/
def normalizeTeamDomainClaim (s : String) : String :=
  let stripped : String := ⟨dropTrailingSlashesSpec (stripScheme s).data⟩
  if stripped.data.contains '.' then stripped
  else stripped ++ ".cloudflareaccess.com"

end ClawdBot

namespace ClawdBot

theorem isPre_nil (l : List Char) : isPre [] l = true := rfl

theorem isPre_append (p t : List Char) : isPre p (p ++ t) = true := by
  induction p with
  | nil => rfl
  | cons a as ih => simp [isPre, ih]

theorem isPre_iff (p l : List Char) : isPre p l = true ↔ ∃ t, l = p ++ t := by
  induction p generalizing l with
  | nil => simp [isPre]
  | cons a as ih =>
    cases l with
    | nil => simp [isPre]
    | cons b bs =>
      simp only [isPre, Bool.and_eq_true, beq_iff_eq, ih]
      constructor
      · rintro ⟨rfl, t, rfl⟩
        exact ⟨t, rfl⟩
      · rintro ⟨t, h⟩
        injection h with h1 h2
        exact ⟨h1.symm, t, h2⟩

theorem dropWhile_replicate_append (p : Char → Bool) (a : Char) (ha : p a = true)
    (n : Nat) (l : List Char) :
    (List.replicate n a ++ l).dropWhile p = l.dropWhile p := by
  induction n with
  | zero => rfl
  | succ m ih => simp [List.replicate_succ, List.dropWhile, ha, ih]

theorem dropWhile_head_not (p : Char → Bool) (l : List Char)
    (h : ∀ c, l.head? = some c → p c = false) : l.dropWhile p = l := by
  cases l with
  | nil => rfl
  | cons c cs => simp [List.dropWhile, h c rfl]

theorem stripTrailingSlashes_of_last_ne (s : String)
    (h : ∀ c, s.data.reverse.head? = some c → (c == '/') = false) :
    stripTrailingSlashes s = s := by
  unfold stripTrailingSlashes
  rw [dropWhile_head_not _ _ h, List.reverse_reverse]

example : normalizeTeamDomain "myteam" = "myteam.cloudflareaccess.com" := by decide
example : normalizeTeamDomain "https://myteam.cloudflareaccess.com/" =
    "myteam.cloudflareaccess.com" := by decide
example : normalizeTeamDomain "http://http://a.b" = "http://a.b" := by decide

theorem dropWhile_append_char (p : Char → Bool) (a b : List Char) :
    (a ++ b).dropWhile p =
      if (a.dropWhile p).isEmpty then b.dropWhile p else a.dropWhile p ++ b := by
  induction a with
  | nil => simp
  | cons c cs ih =>
    by_cases hc : p c = true
    · simpa [List.dropWhile, hc] using ih
    · simp [List.dropWhile, hc]

theorem strip_eq_dropSpec (l : List Char) :
    (l.reverse.dropWhile (fun c => c == '/')).reverse = dropTrailingSlashesSpec l := by
  induction l with
  | nil => rfl
  | cons c cs ih =>
    unfold dropTrailingSlashesSpec
    simp only [List.foldr_cons]
    rw [show (cs.foldr (fun c acc =>
        if acc.isEmpty && c == '/' then [] else c :: acc) []) =
        dropTrailingSlashesSpec cs from rfl, ← ih]
    rw [List.reverse_cons, dropWhile_append_char]
    by_cases hnil : cs.reverse.dropWhile (fun c => c == '/') = []
    · rw [hnil]
      by_cases hc : (c == '/') = true
      · simp [List.dropWhile, hc]
      · simp [List.dropWhile, hc]
    · obtain ⟨d, ds, hd⟩ : ∃ d ds,
          cs.reverse.dropWhile (fun c => c == '/') = d :: ds := by
        cases hX : cs.reverse.dropWhile (fun c => c == '/') with
        | nil => exact absurd hX hnil
        | cons d ds => exact ⟨d, ds, rfl⟩
      rw [hd]
      simp

theorem isPre_append_of (q d t : List Char) (h : isPre q d = true) :
    isPre q (d ++ t) = true := by
  obtain ⟨r, rfl⟩ := (isPre_iff q d).mp h
  rw [List.append_assoc]
  exact isPre_append q (r ++ t)

theorem isPre_append_cases (q d t : List Char) (h : isPre q (d ++ t) = true) :
    isPre q d = true ∨ ∃ c, t.head? = some c ∧ c ∈ q := by
  induction d generalizing q with
  | nil =>
    cases q with
    | nil => exact Or.inl rfl
    | cons a as =>
      obtain ⟨r, hr⟩ := (isPre_iff _ _).mp h
      simp only [List.nil_append] at hr
      subst hr
      exact Or.inr ⟨a, rfl, List.mem_cons_self a as⟩
  | cons x ds ih =>
    cases q with
    | nil => exact Or.inl rfl
    | cons a as =>
      simp only [List.cons_append, isPre, Bool.and_eq_true, beq_iff_eq] at h
      obtain ⟨rfl, h2⟩ := h
      rcases ih as h2 with h3 | ⟨c, hc1, hc2⟩
      · exact Or.inl (by simp [isPre, h3])
      · exact Or.inr ⟨c, hc1, List.mem_cons_of_mem _ hc2⟩

theorem dropWhile_suffix_exists (p : Char → Bool) (l : List Char) :
    ∃ t, l = t ++ l.dropWhile p := by
  induction l with
  | nil => exact ⟨[], rfl⟩
  | cons a as ih =>
    by_cases ha : p a = true
    · obtain ⟨t, ht⟩ := ih
      exact ⟨a :: t, by simp [List.dropWhile, ha]; exact ht⟩
    · exact ⟨[], by simp [List.dropWhile, ha]⟩

theorem stripTrailingSlashes_data (s : String) :
    ∃ t, s.data = (stripTrailingSlashes s).data ++ t := by
  obtain ⟨t, ht⟩ := dropWhile_suffix_exists (fun c => c == '/') s.data.reverse
  refine ⟨t.reverse, ?_⟩
  have := congrArg List.reverse ht
  simpa [stripTrailingSlashes] using this

theorem head?_dropWhile_not (p : Char → Bool) (l : List Char) :
    ∀ c, (l.dropWhile p).head? = some c → p c = false := by
  induction l with
  | nil => intro c h; cases h
  | cons a as ih =>
    intro c h
    by_cases ha : p a = true
    · exact ih c (by simpa [List.dropWhile, ha] using h)
    · rw [Bool.not_eq_true] at ha
      simp only [List.dropWhile, ha] at h
      rw [List.head?_cons] at h
      injection h with h
      subst h
      simpa using ha

theorem isPre_head_ne (x : Char) (l : List Char) (c : Char)
    (hl : l.head? = some c) (hx : (x == c) = false) : isPre [x] l = false := by
  cases l with
  | nil => cases hl
  | cons b bs =>
    rw [List.head?_cons] at hl
    injection hl with hl
    subst hl
    simp [isPre, hx]

theorem isSuf_slash_strip (s : String) :
    isSuf ['/'] (stripTrailingSlashes s).data = false := by
  unfold isSuf stripTrailingSlashes
  rw [List.reverse_reverse]
  cases hh : (s.data.reverse.dropWhile (fun c => c == '/')).head? with
  | none =>
    have : s.data.reverse.dropWhile (fun c => c == '/') = [] := by
      cases hX : s.data.reverse.dropWhile (fun c => c == '/') with
      | nil => rfl
      | cons a as => rw [hX] at hh; cases hh
    rw [this]; rfl
  | some c =>
    have hc : (c == '/') = false := head?_dropWhile_not _ _ c hh
    have hc2 : ('/' == c) = false := by
      rw [beq_eq_false_iff_ne] at hc ⊢
      exact fun h => hc h.symm
    exact isPre_head_ne '/' _ c hh hc2

theorem isSuf_slash_normalize (s : String) :
    isSuf ['/'] (normalizeTeamDomain s).data = false := by
  unfold normalizeTeamDomain
  by_cases hdot :
      ((stripTrailingSlashes (stripScheme s)).data.contains '.') = true
  · simp only [hdot, Bool.not_true, Bool.false_eq_true, if_false]
    exact isSuf_slash_strip _
  · rw [Bool.not_eq_true] at hdot
    simp only [hdot, Bool.not_false, if_true]
    unfold isSuf
    rw [String.data_append, List.reverse_append]
    have hm : ((".cloudflareaccess.com" : String).data.reverse ++
        (stripTrailingSlashes (stripScheme s)).data.reverse).head? = some 'm' := by
      rw [List.head?_append_of_ne_nil _ (by decide)]
      decide
    exact isPre_head_ne '/' _ 'm' hm (by decide)

theorem contains_dot_normalize (s : String) :
    (normalizeTeamDomain s).data.contains '.' = true := by
  unfold normalizeTeamDomain
  by_cases hdot :
      ((stripTrailingSlashes (stripScheme s)).data.contains '.') = true
  · simp only [hdot, Bool.not_true, Bool.false_eq_true, if_false]
  · rw [Bool.not_eq_true] at hdot
    simp only [hdot, Bool.not_false, if_true]
    rw [String.data_append]
    have hmem : ('.' : Char) ∈ (stripTrailingSlashes (stripScheme s)).data ++
        (".cloudflareaccess.com" : String).data :=
      List.mem_append_right _ (by decide)
    simp [hmem]

theorem scheme_strip_slashes (s : String)
    (h : startsWithScheme (stripScheme s) = false) :
    startsWithScheme (stripTrailingSlashes (stripScheme s)) = false := by
  unfold startsWithScheme at h ⊢
  rw [Bool.or_eq_false_iff] at h ⊢
  obtain ⟨t, ht⟩ := stripTrailingSlashes_data (stripScheme s)
  constructor
  · cases hp : isPre httpScheme (stripTrailingSlashes (stripScheme s)).data with
    | false => rfl
    | true =>
      have := isPre_append_of _ _ t hp
      rw [← ht] at this
      rw [this] at h
      exact absurd h.1 (by simp)
  · cases hp : isPre httpsScheme (stripTrailingSlashes (stripScheme s)).data with
    | false => rfl
    | true =>
      have := isPre_append_of _ _ t hp
      rw [← ht] at this
      rw [this] at h
      exact absurd h.2 (by simp)

theorem scheme_normalize (s : String)
    (h : startsWithScheme (stripScheme s) = false) :
    startsWithScheme (normalizeTeamDomain s) = false := by
  have hd := scheme_strip_slashes s h
  unfold normalizeTeamDomain
  by_cases hdot :
      ((stripTrailingSlashes (stripScheme s)).data.contains '.') = true
  · simp only [hdot, Bool.not_true, Bool.false_eq_true, if_false]
    exact hd
  · rw [Bool.not_eq_true] at hdot
    simp only [hdot, Bool.not_false, if_true]
    unfold startsWithScheme at hd ⊢
    rw [Bool.or_eq_false_iff] at hd ⊢
    rw [String.data_append]
    constructor
    · cases hp : isPre httpScheme ((stripTrailingSlashes (stripScheme s)).data ++
          (".cloudflareaccess.com" : String).data) with
      | false => rfl
      | true =>
        rcases isPre_append_cases _ _ _ hp with h1 | ⟨c, hc1, hc2⟩
        · rw [h1] at hd; exact absurd hd.1 (by simp)
        · have : c = '.' := by
            have : (".cloudflareaccess.com" : String).data.head? = some '.' := by decide
            rw [this] at hc1; injection hc1 with h'; exact h'.symm
          subst this
          exact absurd hc2 (by decide)
    · cases hp : isPre httpsScheme ((stripTrailingSlashes (stripScheme s)).data ++
          (".cloudflareaccess.com" : String).data) with
      | false => rfl
      | true =>
        rcases isPre_append_cases _ _ _ hp with h1 | ⟨c, hc1, hc2⟩
        · rw [h1] at hd; exact absurd hd.2 (by simp)
        · have : c = '.' := by
            have : (".cloudflareaccess.com" : String).data.head? = some '.' := by decide
            rw [this] at hc1; injection hc1 with h'; exact h'.symm
          subst this
          exact absurd hc2 (by decide)

/-- Typed failure classes of access-token verification (section 7 of the
design document): all collapse to one reportable failure class. -/
inductive VerificationError where
  | badSignature
  | expiredToken
  | wrongIssuer
  | wrongAudience
  | malformedToken
  | keySetFetchFailure
deriving DecidableEq

/-- Handle on a remote JSON Web Key Set, as produced by the external
key-fetching collaborator (`createRemoteJWKSet` in the source). Its
contents are irrelevant to this core. -/
structure KeySet where
  keys : List String := []
deriving DecidableEq

/-- Modelled from the spec: the decoded token payload of section 4.1 step 6
(issuer, audience, subject, expiry, passthrough custom claims). The
concrete `JWTPayload` interface lives in `src/types.ts`, which is not among
the sources under review. -/
structure JWTPayload where
  iss : Option String := none
  aud : Option String := none
  sub : Option String := none
  exp : Option Nat := none
  customClaims : List (String × String) := []
deriving DecidableEq

/-- Issuer derivation from `verifyAccessJWT` lines 46 to 48 of
`src/auth/jwt.ts`: prepend `https://` unless already present. -/
def deriveIssuer (teamDomain : String) : String :=
  let normalizedDomain := normalizeTeamDomain teamDomain
  if isPre httpsScheme normalizedDomain.data then normalizedDomain
  else "https://" ++ normalizedDomain

/-- Key-set endpoint bound to the issuer, line 51 of `src/auth/jwt.ts`. -/
def certsUrl (issuer : String) : String :=
  issuer ++ "/cdn-cgi/access/certs"

/-- Translation of `verifyAccessJWT` from `src/auth/jwt.ts`. The remote
key-set fetch and the jose-library verification (signature, issuer,
audience and temporal checks) are external capabilities; they are passed
in as `Except`-valued functions, the `Except` error channel standing for
the rejected promise of the asynchronous source function. -/
def verifyAccessJWT
    (fetchJWKS : String → Except VerificationError KeySet)
    (joseVerify : String → KeySet → String → String →
      Except VerificationError JWTPayload)
    (token teamDomain expectedAud : String) :
    Except VerificationError JWTPayload :=
  let issuer := deriveIssuer teamDomain
  match fetchJWKS (certsUrl issuer) with
  | .error e => .error e
  | .ok jwks => joseVerify token jwks issuer expectedAud

/-- C1: for every team-identity string, `normalizeTeamDomain` first removes
a leading `http://` or `https://` and all trailing slashes; if the result
contains no dot it appends `.cloudflareaccess.com`, and otherwise it
returns the stripped string unchanged. -/
theorem c1_normalize_team_domain (s : String) :
    normalizeTeamDomain s = normalizeTeamDomainClaim s := by
  unfold normalizeTeamDomain normalizeTeamDomainClaim
  have hd : stripTrailingSlashes (stripScheme s) =
      (⟨dropTrailingSlashesSpec (stripScheme s).data⟩ : String) :=
    congrArg String.mk (strip_eq_dropSpec (stripScheme s).data)
  rw [hd]
  cases hc : (⟨dropTrailingSlashesSpec (stripScheme s).data⟩ : String).data.contains '.' with
  | false => simp [hc]
  | true => simp [hc]

/-- Witness instantiating C1 on concrete bare and qualified identities. -/
theorem c1_normalize_team_domain_witness :
    normalizeTeamDomain "myteam" = normalizeTeamDomainClaim "myteam" ∧
    normalizeTeamDomain "https://a.b//" = normalizeTeamDomainClaim "https://a.b//" :=
  ⟨c1_normalize_team_domain "myteam", c1_normalize_team_domain "https://a.b//"⟩

/-- C2 is false as stated: on the input `http://http://a.b` the normalized
domain still begins with `http://`, because the source removes only one
leading scheme occurrence before the dot test. -/
theorem c2_counterexample :
    startsWithScheme (normalizeTeamDomain "http://http://a.b") = true ∧
    normalizeTeamDomain "http://http://a.b" = "http://a.b" := by
  constructor <;> decide

/-- C2 (amended): for every input string whose scheme-stripped form does
not itself begin with `http://` or `https://`, the output of
`normalizeTeamDomain` satisfies all three invariants: it carries no scheme,
does not end with a slash, and contains at least one dot. -/
theorem c2_normalized_invariants (s : String)
    (h : startsWithScheme (stripScheme s) = false) :
    startsWithScheme (normalizeTeamDomain s) = false ∧
    isSuf ['/'] (normalizeTeamDomain s).data = false ∧
    (normalizeTeamDomain s).data.contains '.' = true :=
  ⟨scheme_normalize s h, isSuf_slash_normalize s, contains_dot_normalize s⟩

/-- Witness for the amended C2 at the concrete identity `https://myteam/`. -/
theorem c2_normalized_invariants_witness :
    startsWithScheme (stripScheme "https://myteam/") = false ∧
    startsWithScheme (normalizeTeamDomain "https://myteam/") = false ∧
    isSuf ['/'] (normalizeTeamDomain "https://myteam/").data = false ∧
    (normalizeTeamDomain "https://myteam/").data.contains '.' = true :=
  ⟨by decide, c2_normalized_invariants "https://myteam/" (by decide)⟩

/-- C3: whenever the key-set fetch or the delegated jose verification
(signature, issuer, audience, expiry) fails, `verifyAccessJWT` evaluates to
exactly that single typed verification error, and in that situation no
claims payload is returned. -/
theorem c3_verify_error_propagation
    (fetchJWKS : String → Except VerificationError KeySet)
    (joseVerify : String → KeySet → String → String →
      Except VerificationError JWTPayload)
    (token teamDomain expectedAud : String) :
    (∀ e, fetchJWKS (certsUrl (deriveIssuer teamDomain)) = .error e →
      verifyAccessJWT fetchJWKS joseVerify token teamDomain expectedAud = .error e ∧
      ∀ p, verifyAccessJWT fetchJWKS joseVerify token teamDomain expectedAud ≠ .ok p) ∧
    (∀ ks e, fetchJWKS (certsUrl (deriveIssuer teamDomain)) = .ok ks →
      joseVerify token ks (deriveIssuer teamDomain) expectedAud = .error e →
      verifyAccessJWT fetchJWKS joseVerify token teamDomain expectedAud = .error e ∧
      ∀ p, verifyAccessJWT fetchJWKS joseVerify token teamDomain expectedAud ≠ .ok p) := by
  constructor
  · intro e he
    constructor
    · simp only [verifyAccessJWT, he]
    · intro p
      simp only [verifyAccessJWT, he]
      intro hcon
      cases hcon
  · intro ks e hks hj
    constructor
    · simp only [verifyAccessJWT, hks, hj]
    · intro p
      simp only [verifyAccessJWT, hks, hj]
      intro hcon
      cases hcon

/-- Witness for C3: a key-set fetch failure and a jose-level audience
failure each surface as the corresponding single typed error. -/
theorem c3_verify_error_propagation_witness :
    verifyAccessJWT (fun _ => .error .keySetFetchFailure)
      (fun _ _ _ _ => .ok {}) "tok" "myteam" "aud" =
        .error .keySetFetchFailure ∧
    verifyAccessJWT (fun _ => .ok {})
      (fun _ _ _ _ => .error .wrongAudience) "tok" "myteam" "aud" =
        .error .wrongAudience :=
  ⟨((c3_verify_error_propagation _ _ "tok" "myteam" "aud").1
      .keySetFetchFailure rfl).1,
   ((c3_verify_error_propagation _ _ "tok" "myteam" "aud").2
      {} .wrongAudience rfl rfl).1⟩

/-- Modelled from the spec: one upstream provider slot, a closed variant
as prescribed by design note 2 of section 9. -/
inductive ProviderSlot where
  | anthropic
  | openai
deriving DecidableEq

/-- Modelled from the spec: the bag of recognized environment variables of
sections 4.2 and 6. One structure serves both as `EnvironmentInputs` and
as `ResolvedEnvironment`, mirroring the plain JavaScript objects of the
source; a field holds `none` when the variable is absent. The input-only
variables are `ai_gateway_api_key`, `moltbot_gateway_token` and
`dev_mode`; the output-only variables are `clawdbot_gateway_token` and
`clawdbot_dev_mode` (the rename targets). -/
structure Env where
  anthropic_api_key : Option String := none
  anthropic_base_url : Option String := none
  openai_api_key : Option String := none
  openai_base_url : Option String := none
  ai_gateway_api_key : Option String := none
  ai_gateway_base_url : Option String := none
  ai_gateway_provider : Option String := none
  ai_gateway_model : Option String := none
  ai_gateway_api_format : Option String := none
  moltbot_gateway_token : Option String := none
  clawdbot_gateway_token : Option String := none
  telegram_bot_token : Option String := none
  telegram_dm_policy : Option String := none
  discord_bot_token : Option String := none
  discord_dm_policy : Option String := none
  slack_bot_token : Option String := none
  slack_app_token : Option String := none
  dev_mode : Option String := none
  clawdbot_dev_mode : Option String := none
  clawdbot_bind_mode : Option String := none
deriving DecidableEq

/-- Reading of one variable: an empty-string value counts as absent
(section 4.2 steps 5 and 6 of the design document). -/
def getNE : Option String → Option String
  | some v => if v = "" then none else some v
  | none => none

/-- Modelled from the spec: the gateway base URL normalized by stripping
all trailing slashes (section 4.2 step 3), an empty result counting as
absent like every other empty value. -/
def normGatewayUrl (o : Option String) : Option String :=
  getNE ((getNE o).map stripTrailingSlashes)

/-- Modelled from the spec: provider-slot detection from the gateway base
URL (section 4.2 step 2b): strip any number of trailing slashes, then test
for the literal suffix `anthropic` or `openai`. -/
def detectSlot (o : Option String) : Option ProviderSlot :=
  match getNE o with
  | some u =>
    let n := stripTrailingSlashes u
    if isSuf "anthropic".data n.data then some ProviderSlot.anthropic
    else if isSuf "openai".data n.data then some ProviderSlot.openai
    else none
  | none => none

/-- Modelled from the spec: slot-selection precedence (section 4.2 step 2):
an explicit override equal to one of the two known slot names wins;
any other override value falls through to URL suffix detection. -/
def selectSlot (env : Env) : Option ProviderSlot :=
  match getNE env.ai_gateway_provider with
  | some p =>
    if p = "anthropic" then some ProviderSlot.anthropic
    else if p = "openai" then some ProviderSlot.openai
    else detectSlot env.ai_gateway_base_url
  | none => detectSlot env.ai_gateway_base_url

/-- Modelled from the spec: `buildEnvVars` of `src/gateway/env.ts`, whose
implementation file is absent from the sources under review (only its test
file is present). The definition follows the resolver algorithm of section
4.2 of the design document -- gateway detection, slot selection,
gateway-routed assignment with suppression of the inactive slot's direct
credentials, direct fallback, verbatim passthrough of the remaining
recognized variables, renames of `MOLTBOT_GATEWAY_TOKEN` and `DEV_MODE` --
and is validated below against every scenario of `env.test.ts`. -/
def buildEnvVars (env : Env) : Env :=
  let gw := getNE env.ai_gateway_api_key
  let slot : Option ProviderSlot :=
    match gw with
    | some _ => selectSlot env
    | none => none
  { anthropic_api_key :=
      match slot with
      | some ProviderSlot.anthropic => gw
      | some ProviderSlot.openai => none
      | none => getNE env.anthropic_api_key
    anthropic_base_url :=
      match slot with
      | some ProviderSlot.anthropic => normGatewayUrl env.ai_gateway_base_url
      | some ProviderSlot.openai => none
      | none => getNE env.anthropic_base_url
    openai_api_key :=
      match slot with
      | some ProviderSlot.openai => gw
      | some ProviderSlot.anthropic => none
      | none => getNE env.openai_api_key
    openai_base_url :=
      match slot with
      | some ProviderSlot.openai => normGatewayUrl env.ai_gateway_base_url
      | some ProviderSlot.anthropic => none
      | none => getNE env.openai_base_url
    ai_gateway_api_key := none
    ai_gateway_base_url :=
      match slot with
      | some _ => normGatewayUrl env.ai_gateway_base_url
      | none => getNE env.ai_gateway_base_url
    ai_gateway_provider := getNE env.ai_gateway_provider
    ai_gateway_model := getNE env.ai_gateway_model
    ai_gateway_api_format := getNE env.ai_gateway_api_format
    moltbot_gateway_token := none
    clawdbot_gateway_token := getNE env.moltbot_gateway_token
    telegram_bot_token := getNE env.telegram_bot_token
    telegram_dm_policy := getNE env.telegram_dm_policy
    discord_bot_token := getNE env.discord_bot_token
    discord_dm_policy := getNE env.discord_dm_policy
    slack_bot_token := getNE env.slack_bot_token
    slack_app_token := getNE env.slack_app_token
    dev_mode := none
    clawdbot_dev_mode := getNE env.dev_mode
    clawdbot_bind_mode := getNE env.clawdbot_bind_mode }

example : buildEnvVars {} = {} := by decide

example :
    (buildEnvVars { anthropic_api_key := some "sk-test-key" }).anthropic_api_key =
      some "sk-test-key" := by decide

example :
    buildEnvVars
      { ai_gateway_api_key := some "sk-gateway-key",
        ai_gateway_base_url := some "https://gateway.ai.cloudflare.com/v1/123/my-gw/anthropic" } =
      { anthropic_api_key := some "sk-gateway-key",
        anthropic_base_url := some "https://gateway.ai.cloudflare.com/v1/123/my-gw/anthropic",
        ai_gateway_base_url := some "https://gateway.ai.cloudflare.com/v1/123/my-gw/anthropic" } := by
  decide

example :
    buildEnvVars
      { ai_gateway_api_key := some "sk-gateway-key",
        ai_gateway_base_url := some "https://gateway.ai.cloudflare.com/v1/123/my-gw/openai" } =
      { openai_api_key := some "sk-gateway-key",
        openai_base_url := some "https://gateway.ai.cloudflare.com/v1/123/my-gw/openai",
        ai_gateway_base_url := some "https://gateway.ai.cloudflare.com/v1/123/my-gw/openai" } := by
  decide

example :
    (buildEnvVars
      { ai_gateway_base_url :=
          some "https://gateway.ai.cloudflare.com/v1/123/my-gw/anthropic" }).ai_gateway_base_url =
      some "https://gateway.ai.cloudflare.com/v1/123/my-gw/anthropic" := by decide

example :
    (buildEnvVars
      { ai_gateway_api_key := some "gateway-key",
        ai_gateway_base_url := some "https://gateway.example.com/anthropic",
        anthropic_api_key := some "direct-key",
        anthropic_base_url := some "https://api.anthropic.com" }).anthropic_api_key =
      some "gateway-key" := by decide

example :
    buildEnvVars
      { ai_gateway_api_key := some "gateway-key",
        ai_gateway_base_url := some "https://gateway.example.com/openai",
        openai_api_key := some "direct-key" } =
      { openai_api_key := some "gateway-key",
        openai_base_url := some "https://gateway.example.com/openai",
        ai_gateway_base_url := some "https://gateway.example.com/openai" } := by decide

example :
    buildEnvVars
      { anthropic_api_key := some "direct-key",
        anthropic_base_url := some "https://api.anthropic.com" } =
      { anthropic_api_key := some "direct-key",
        anthropic_base_url := some "https://api.anthropic.com" } := by decide

example :
    (buildEnvVars { openai_api_key := some "sk-openai-key" }).openai_api_key =
      some "sk-openai-key" := by decide

example :
    buildEnvVars { moltbot_gateway_token := some "my-token" } =
      { clawdbot_gateway_token := some "my-token" } := by decide

example :
    buildEnvVars
      { telegram_bot_token := some "tg-token",
        telegram_dm_policy := some "pairing",
        discord_bot_token := some "discord-token",
        discord_dm_policy := some "open",
        slack_bot_token := some "slack-bot",
        slack_app_token := some "slack-app" } =
      { telegram_bot_token := some "tg-token",
        telegram_dm_policy := some "pairing",
        discord_bot_token := some "discord-token",
        discord_dm_policy := some "open",
        slack_bot_token := some "slack-bot",
        slack_app_token := some "slack-app" } := by decide

example :
    buildEnvVars { dev_mode := some "true", clawdbot_bind_mode := some "lan" } =
      { clawdbot_dev_mode := some "true", clawdbot_bind_mode := some "lan" } := by decide

example :
    buildEnvVars
      { anthropic_api_key := some "sk-key",
        moltbot_gateway_token := some "token",
        telegram_bot_token := some "tg" } =
      { anthropic_api_key := some "sk-key",
        clawdbot_gateway_token := some "token",
        telegram_bot_token := some "tg" } := by decide

example :
    buildEnvVars
      { ai_gateway_api_key := some "sk-gateway-key",
        ai_gateway_base_url := some "https://gateway.ai.cloudflare.com/v1/123/my-gw/openai/" } =
      { openai_api_key := some "sk-gateway-key",
        openai_base_url := some "https://gateway.ai.cloudflare.com/v1/123/my-gw/openai",
        ai_gateway_base_url := some "https://gateway.ai.cloudflare.com/v1/123/my-gw/openai" } := by
  decide

example :
    buildEnvVars
      { ai_gateway_api_key := some "sk-gateway-key",
        ai_gateway_base_url := some "https://gateway.ai.cloudflare.com/v1/123/my-gw/anthropic/" } =
      { anthropic_api_key := some "sk-gateway-key",
        anthropic_base_url := some "https://gateway.ai.cloudflare.com/v1/123/my-gw/anthropic",
        ai_gateway_base_url := some "https://gateway.ai.cloudflare.com/v1/123/my-gw/anthropic" } := by
  decide

example :
    buildEnvVars
      { ai_gateway_api_key := some "sk-gateway-key",
        ai_gateway_base_url := some "https://gateway.ai.cloudflare.com/v1/123/my-gw/openai///" } =
      { openai_api_key := some "sk-gateway-key",
        openai_base_url := some "https://gateway.ai.cloudflare.com/v1/123/my-gw/openai",
        ai_gateway_base_url := some "https://gateway.ai.cloudflare.com/v1/123/my-gw/openai" } := by
  decide

example :
    buildEnvVars
      { ai_gateway_api_key := some "sk-gateway-key",
        ai_gateway_base_url := some "https://gateway.example.com/anthropic",
        ai_gateway_provider := some "openai" } =
      { openai_api_key := some "sk-gateway-key",
        openai_base_url := some "https://gateway.example.com/anthropic",
        ai_gateway_base_url := some "https://gateway.example.com/anthropic",
        ai_gateway_provider := some "openai" } := by decide

example :
    buildEnvVars
      { ai_gateway_api_key := some "sk-gateway-key",
        ai_gateway_base_url := some "https://gateway.example.com/openai",
        ai_gateway_provider := some "anthropic" } =
      { anthropic_api_key := some "sk-gateway-key",
        anthropic_base_url := some "https://gateway.example.com/openai",
        ai_gateway_base_url := some "https://gateway.example.com/openai",
        ai_gateway_provider := some "anthropic" } := by decide

example :
    (buildEnvVars { ai_gateway_model := some "claude-3-opus-20240229" }).ai_gateway_model =
      some "claude-3-opus-20240229" := by decide

example :
    buildEnvVars
      { ai_gateway_api_key := some "sk-gateway-key",
        ai_gateway_base_url := some "https://gateway.example.com/v1",
        ai_gateway_provider := some "openai",
        ai_gateway_model := some "gpt-5-mini" } =
      { openai_api_key := some "sk-gateway-key",
        openai_base_url := some "https://gateway.example.com/v1",
        ai_gateway_base_url := some "https://gateway.example.com/v1",
        ai_gateway_provider := some "openai",
        ai_gateway_model := some "gpt-5-mini" } := by decide

example :
    (buildEnvVars
      { ai_gateway_api_key := some "key",
        ai_gateway_base_url := some "https://gateway.com/openai",
        ai_gateway_provider := some "invalid" }).openai_api_key = some "key" := by decide

example :
    (buildEnvVars
      { ai_gateway_api_key := some "key",
        ai_gateway_base_url := some "https://gateway.com/",
        ai_gateway_model := some "" }).ai_gateway_model = none := by decide

example :
    (buildEnvVars
      { ai_gateway_api_key := some "key",
        ai_gateway_base_url := some "not-a-valid-url" }).ai_gateway_base_url =
      some "not-a-valid-url" := by decide

example :
    (buildEnvVars
      { ai_gateway_api_key := some "key",
        ai_gateway_base_url := some "https://gateway.com/",
        ai_gateway_api_format := some "openai-completions" }).ai_gateway_api_format =
      some "openai-completions" := by decide

theorem getNE_none_eq : getNE none = none := rfl

theorem getNE_idem (o : Option String) : getNE (getNE o) = getNE o := by
  cases o with
  | none => rfl
  | some v =>
    by_cases hv : v = ""
    · simp [getNE, hv]
    · simp [getNE, hv]

theorem getNE_eq_some (o : Option String) (v : String) (h : getNE o = some v) :
    o = some v ∧ v ≠ "" := by
  cases o with
  | none => cases h
  | some w =>
    by_cases hw : w = ""
    · simp [getNE, hw] at h
    · simp only [getNE, hw, if_neg, ite_false] at h
      injection h with h
      subst h
      exact ⟨rfl, hw⟩

theorem getNE_some_of_ne (v : String) (hv : v ≠ "") : getNE (some v) = some v := by
  simp [getNE, hv]

theorem normGatewayUrl_isSome (o : Option String)
    (h : (normGatewayUrl o).isSome = true) : (getNE o).isSome = true := by
  unfold normGatewayUrl at h
  cases ho : getNE o with
  | none => rw [ho] at h; cases h
  | some u => rfl

theorem isPre_head_eq (p l : List Char) (a : Char) (hp : p.head? = some a)
    (h : isPre p l = true) : l.head? = some a := by
  cases p with
  | nil => cases hp
  | cons x xs =>
    rw [List.head?_cons] at hp
    injection hp with hp
    subst hp
    cases l with
    | nil => cases h
    | cons b bs =>
      simp only [isPre, Bool.and_eq_true, beq_iff_eq] at h
      rw [List.head?_cons, h.1]

theorem last_not_slash_of_isSuf_false (u : String)
    (h : isSuf ['/'] u.data = false) :
    ∀ c, u.data.reverse.head? = some c → (c == '/') = false := by
  intro c hc
  cases hcc : (c == '/') with
  | false => rfl
  | true =>
    have hc' : c = '/' := by simpa using hcc
    subst hc'
    unfold isSuf at h
    cases hl : u.data.reverse with
    | nil => rw [hl] at hc; cases hc
    | cons d ds =>
      rw [hl] at hc h
      rw [List.head?_cons] at hc
      injection hc with hc
      subst hc
      simp [isPre] at h

theorem strip_append_slashes (s : String) (n : Nat)
    (h : ∀ c, s.data.reverse.head? = some c → (c == '/') = false) :
    stripTrailingSlashes (s ++ (⟨List.replicate n '/'⟩ : String)) = s := by
  unfold stripTrailingSlashes
  rw [String.data_append]
  show (⟨((s.data ++ (List.replicate n '/')).reverse.dropWhile
      (fun c => c == '/')).reverse⟩ : String) = s
  rw [List.reverse_append, List.reverse_replicate,
    dropWhile_replicate_append _ '/' (by decide) n,
    dropWhile_head_not _ _ h, List.reverse_reverse]

theorem append_slashes_ne_empty (s : String) (n : Nat) (hs : s ≠ "") :
    s ++ (⟨List.replicate n '/'⟩ : String) ≠ "" := by
  intro hcon
  apply hs
  have : (s ++ (⟨List.replicate n '/'⟩ : String)).data = [] :=
    congrArg String.data hcon
  rw [String.data_append] at this
  rcases List.append_eq_nil.mp this with ⟨h1, _⟩
  cases s with
  | mk d => simpa using congrArg String.mk h1

theorem isSuf_ne_empty (p : List Char) (s : String) (hp : p ≠ [])
    (h : isSuf p s.data = true) : s ≠ "" := by
  intro hcon
  subst hcon
  unfold isSuf at h
  cases p with
  | nil => exact hp rfl
  | cons a as =>
    rw [List.reverse_cons] at h
    rcases (isPre_iff _ _).mp h with ⟨t, ht⟩
    have := congrArg List.length ht
    simp at this
    omega

/-- C4: with the gateway API key present, slot selection lets an override
equal to `anthropic` or `openai` win regardless of the base URL, while any
other override value, and an absent one, falls through to slash-stripped
URL suffix detection; an unrecognized override never produces an error. -/
theorem c4_override_precedence (env : Env) (k : String)
    (_hgw : getNE env.ai_gateway_api_key = some k) :
    (getNE env.ai_gateway_provider = some "anthropic" →
      selectSlot env = some ProviderSlot.anthropic) ∧
    (getNE env.ai_gateway_provider = some "openai" →
      selectSlot env = some ProviderSlot.openai) ∧
    (∀ p, getNE env.ai_gateway_provider = some p →
      p ≠ "anthropic" → p ≠ "openai" →
      selectSlot env = detectSlot env.ai_gateway_base_url) ∧
    (getNE env.ai_gateway_provider = none →
      selectSlot env = detectSlot env.ai_gateway_base_url) := by
  refine ⟨?_, ?_, ?_, ?_⟩
  · intro hp
    simp [selectSlot, hp]
  · intro hp
    simp [selectSlot, hp]
  · intro p hp hpa hpo
    simp [selectSlot, hp, hpa, hpo]
  · intro hp
    simp [selectSlot, hp]

/-- Witness for C4 at the test scenario with the unrecognized override
`invalid`: selection falls through to URL detection and picks `openai`. -/
theorem c4_override_precedence_witness :
    selectSlot
      { ai_gateway_api_key := some "key",
        ai_gateway_base_url := some "https://gateway.com/openai",
        ai_gateway_provider := some "invalid" } =
      detectSlot
        ({ ai_gateway_api_key := some "key",
           ai_gateway_base_url := some "https://gateway.com/openai",
           ai_gateway_provider := some "invalid" } : Env).ai_gateway_base_url :=
  ((c4_override_precedence _ "key" (by decide)).2.2.1
    "invalid" (by decide) (by decide) (by decide))

/-- C5: when gateway routing is active and a slot is selected, the selected
slot's API-key variable carries the gateway key, the other slot's API-key
variable is absent even if its direct key was supplied, and every
non-credential variable keeps its ordinary passthrough value. -/
theorem c5_gateway_supersedes (env : Env) (k : String) (slot : ProviderSlot)
    (hgw : getNE env.ai_gateway_api_key = some k)
    (hs : selectSlot env = some slot) :
    ((slot = ProviderSlot.anthropic →
        (buildEnvVars env).anthropic_api_key = some k ∧
        (buildEnvVars env).openai_api_key = none) ∧
     (slot = ProviderSlot.openai →
        (buildEnvVars env).openai_api_key = some k ∧
        (buildEnvVars env).anthropic_api_key = none)) ∧
    (buildEnvVars env).ai_gateway_provider = getNE env.ai_gateway_provider ∧
    (buildEnvVars env).ai_gateway_model = getNE env.ai_gateway_model ∧
    (buildEnvVars env).ai_gateway_api_format = getNE env.ai_gateway_api_format ∧
    (buildEnvVars env).clawdbot_gateway_token = getNE env.moltbot_gateway_token ∧
    (buildEnvVars env).telegram_bot_token = getNE env.telegram_bot_token ∧
    (buildEnvVars env).telegram_dm_policy = getNE env.telegram_dm_policy ∧
    (buildEnvVars env).discord_bot_token = getNE env.discord_bot_token ∧
    (buildEnvVars env).discord_dm_policy = getNE env.discord_dm_policy ∧
    (buildEnvVars env).slack_bot_token = getNE env.slack_bot_token ∧
    (buildEnvVars env).slack_app_token = getNE env.slack_app_token ∧
    (buildEnvVars env).clawdbot_dev_mode = getNE env.dev_mode ∧
    (buildEnvVars env).clawdbot_bind_mode = getNE env.clawdbot_bind_mode := by
  cases slot with
  | anthropic => simp [buildEnvVars, hgw, hs]
  | openai => simp [buildEnvVars, hgw, hs]

/-- Witness for C5 at a gateway-routed environment that also carries the
other slot's direct key: the direct `ANTHROPIC_API_KEY` is suppressed. -/
theorem c5_gateway_supersedes_witness :
    (buildEnvVars
      { ai_gateway_api_key := some "gateway-key",
        ai_gateway_base_url := some "https://gateway.example.com/openai",
        anthropic_api_key := some "direct-key" }).openai_api_key =
        some "gateway-key" ∧
    (buildEnvVars
      { ai_gateway_api_key := some "gateway-key",
        ai_gateway_base_url := some "https://gateway.example.com/openai",
        anthropic_api_key := some "direct-key" }).anthropic_api_key = none :=
  ((c5_gateway_supersedes
      { ai_gateway_api_key := some "gateway-key",
        ai_gateway_base_url := some "https://gateway.example.com/openai",
        anthropic_api_key := some "direct-key" }
      "gateway-key" ProviderSlot.openai (by decide) (by decide)).1.2 rfl)

theorem normGatewayUrl_strip (base : String) (n : Nat) (hbase : base ≠ "")
    (hlast : ∀ c, base.data.reverse.head? = some c → (c == '/') = false) :
    normGatewayUrl (some (base ++ (⟨List.replicate n '/'⟩ : String))) = some base := by
  unfold normGatewayUrl
  rw [getNE_some_of_ne _ (append_slashes_ne_empty base n hbase)]
  show getNE (some (stripTrailingSlashes (base ++ (⟨List.replicate n '/'⟩ : String)))) =
    some base
  rw [strip_append_slashes base n hlast]
  exact getNE_some_of_ne _ hbase

/-- Gateway-only input environment used to state the round-trip claim C6:
only the gateway API key and gateway base URL are supplied. -/
def gatewayProbeEnv (k url : String) : Env :=
  { ai_gateway_api_key := some k, ai_gateway_base_url := some url }

/-- C6: for every non-empty gateway key and every base URL ending in a known
slot suffix, and for every number of appended trailing slashes, resolution
emits the generic gateway base-URL variable and the selected slot's
base-URL variable with the identical slash-free value, independent of the
slash count. -/
theorem c6_roundtrip (base k : String) (n : Nat) (slot : ProviderSlot)
    (hk : k ≠ "")
    (hsuf : (isSuf "anthropic".data base.data = true ∧ slot = ProviderSlot.anthropic) ∨
            (isSuf "openai".data base.data = true ∧ slot = ProviderSlot.openai)) :
    (buildEnvVars (gatewayProbeEnv k
        (base ++ (⟨List.replicate n '/'⟩ : String)))).ai_gateway_base_url = some base ∧
    (match slot with
     | ProviderSlot.anthropic =>
        (buildEnvVars (gatewayProbeEnv k
          (base ++ (⟨List.replicate n '/'⟩ : String)))).anthropic_base_url = some base
     | ProviderSlot.openai =>
        (buildEnvVars (gatewayProbeEnv k
          (base ++ (⟨List.replicate n '/'⟩ : String)))).openai_base_url = some base) := by
  rcases hsuf with ⟨hs, rfl⟩ | ⟨hs, rfl⟩
  · have hhead : base.data.reverse.head? = some 'c' :=
      isPre_head_eq _ _ 'c' (by decide) hs
    have hlast : ∀ c, base.data.reverse.head? = some c → (c == '/') = false := by
      intro c hc
      rw [hhead] at hc
      injection hc with hc
      subst hc
      decide
    have hbase : base ≠ "" := isSuf_ne_empty _ _ (by decide) hs
    have hurlne : base ++ (⟨List.replicate n '/'⟩ : String) ≠ "" :=
      append_slashes_ne_empty base n hbase
    have hstrip := strip_append_slashes base n hlast
    have hdet : detectSlot (some (base ++ (⟨List.replicate n '/'⟩ : String))) =
        some ProviderSlot.anthropic := by
      unfold detectSlot
      rw [getNE_some_of_ne _ hurlne]
      simp [hstrip, hs]
    have hgwk : getNE (some k) = some k := getNE_some_of_ne k hk
    have hsel : selectSlot (gatewayProbeEnv k
        (base ++ (⟨List.replicate n '/'⟩ : String))) = some ProviderSlot.anthropic := hdet
    simp only [gatewayProbeEnv] at hsel
    constructor
    · simp only [buildEnvVars, hgwk, hsel, gatewayProbeEnv]
      exact normGatewayUrl_strip base n hbase hlast
    · simp only [buildEnvVars, hgwk, hsel, gatewayProbeEnv]
      exact normGatewayUrl_strip base n hbase hlast
  · have hhead : base.data.reverse.head? = some 'i' :=
      isPre_head_eq _ _ 'i' (by decide) hs
    have hlast : ∀ c, base.data.reverse.head? = some c → (c == '/') = false := by
      intro c hc
      rw [hhead] at hc
      injection hc with hc
      subst hc
      decide
    have hbase : base ≠ "" := isSuf_ne_empty _ _ (by decide) hs
    have hurlne : base ++ (⟨List.replicate n '/'⟩ : String) ≠ "" :=
      append_slashes_ne_empty base n hbase
    have hstrip := strip_append_slashes base n hlast
    have hno : isSuf "anthropic".data base.data = false := by
      cases hX : isSuf "anthropic".data base.data with
      | false => rfl
      | true =>
        have h1 : base.data.reverse.head? = some 'c' :=
          isPre_head_eq _ _ 'c' (by decide) hX
        rw [hhead] at h1
        injection h1 with h1
        exact absurd h1 (by decide)
    have hdet : detectSlot (some (base ++ (⟨List.replicate n '/'⟩ : String))) =
        some ProviderSlot.openai := by
      unfold detectSlot
      rw [getNE_some_of_ne _ hurlne]
      simp [hstrip, hs, hno]
    have hgwk : getNE (some k) = some k := getNE_some_of_ne k hk
    have hsel : selectSlot (gatewayProbeEnv k
        (base ++ (⟨List.replicate n '/'⟩ : String))) = some ProviderSlot.openai := hdet
    simp only [gatewayProbeEnv] at hsel
    constructor
    · simp only [buildEnvVars, hgwk, hsel, gatewayProbeEnv]
      exact normGatewayUrl_strip base n hbase hlast
    · simp only [buildEnvVars, hgwk, hsel, gatewayProbeEnv]
      exact normGatewayUrl_strip base n hbase hlast

/-- Witness for C6 at the gateway URL of the test suite with three appended
trailing slashes. -/
theorem c6_roundtrip_witness :
    (buildEnvVars (gatewayProbeEnv "sk-gateway-key"
        ("https://gateway.ai.cloudflare.com/v1/123/my-gw/openai" ++
          (⟨List.replicate 3 '/'⟩ : String)))).ai_gateway_base_url =
      some "https://gateway.ai.cloudflare.com/v1/123/my-gw/openai" ∧
    (buildEnvVars (gatewayProbeEnv "sk-gateway-key"
        ("https://gateway.ai.cloudflare.com/v1/123/my-gw/openai" ++
          (⟨List.replicate 3 '/'⟩ : String)))).openai_base_url =
      some "https://gateway.ai.cloudflare.com/v1/123/my-gw/openai" :=
  c6_roundtrip "https://gateway.ai.cloudflare.com/v1/123/my-gw/openai"
    "sk-gateway-key" 3 ProviderSlot.openai (by decide)
    (Or.inr ⟨by decide, rfl⟩)

/-- C7 is false as stated: the resolver output for the input holding only
`MOLTBOT_GATEWAY_TOKEN` consists of the single already-final output key
`CLAWDBOT_GATEWAY_TOKEN`, yet feeding that output back into the resolver
drops the key, because the renamed variable is not a recognized input. -/
theorem c7_counterexample :
    buildEnvVars { moltbot_gateway_token := some "token" } =
      { clawdbot_gateway_token := some "token" } ∧
    buildEnvVars { clawdbot_gateway_token := some "token" } ≠
      ({ clawdbot_gateway_token := some "token" } : Env) := by
  constructor
  · decide
  · decide

/-- C7 (amended): re-resolving any resolver output reproduces it except on
the two renamed container variables `CLAWDBOT_GATEWAY_TOKEN` and
`CLAWDBOT_DEV_MODE`, which are dropped because they are not recognized
inputs; every other emitted key survives unrenamed and unrewritten. -/
theorem c7_idempotent_up_to_renames (env : Env) :
    buildEnvVars (buildEnvVars env) =
      { buildEnvVars env with
          clawdbot_gateway_token := none
          clawdbot_dev_mode := none } := by
  cases hgw : getNE env.ai_gateway_api_key with
  | none =>
    simp [buildEnvVars, hgw, getNE_idem, getNE_none_eq]
  | some k =>
    have hk : k ≠ "" := (getNE_eq_some _ _ hgw).2
    cases hs : selectSlot env with
    | none =>
      simp [buildEnvVars, hgw, hs, getNE_idem, getNE_none_eq,
        getNE_some_of_ne _ hk, normGatewayUrl]
    | some slot =>
      cases slot <;>
        simp [buildEnvVars, hgw, hs, getNE_idem, getNE_none_eq,
          getNE_some_of_ne _ hk, normGatewayUrl]

/-- C8: no key is fabricated: the empty environment resolves to the empty
mapping; each output key requires its originating input present with a
non-empty value; the input-only keys never appear in the output; and an
empty-string gateway model tag is omitted from the output entirely. -/
theorem c8_no_defaults :
    buildEnvVars {} = {} ∧
    ∀ env : Env,
      ((buildEnvVars env).anthropic_api_key.isSome = true →
        (getNE env.anthropic_api_key).isSome = true ∨
        (getNE env.ai_gateway_api_key).isSome = true) ∧
      ((buildEnvVars env).anthropic_base_url.isSome = true →
        (getNE env.anthropic_base_url).isSome = true ∨
        (getNE env.ai_gateway_base_url).isSome = true) ∧
      ((buildEnvVars env).openai_api_key.isSome = true →
        (getNE env.openai_api_key).isSome = true ∨
        (getNE env.ai_gateway_api_key).isSome = true) ∧
      ((buildEnvVars env).openai_base_url.isSome = true →
        (getNE env.openai_base_url).isSome = true ∨
        (getNE env.ai_gateway_base_url).isSome = true) ∧
      (buildEnvVars env).ai_gateway_api_key = none ∧
      ((buildEnvVars env).ai_gateway_base_url.isSome = true →
        (getNE env.ai_gateway_base_url).isSome = true) ∧
      ((buildEnvVars env).ai_gateway_provider.isSome = true →
        (getNE env.ai_gateway_provider).isSome = true) ∧
      ((buildEnvVars env).ai_gateway_model.isSome = true →
        (getNE env.ai_gateway_model).isSome = true) ∧
      ((buildEnvVars env).ai_gateway_api_format.isSome = true →
        (getNE env.ai_gateway_api_format).isSome = true) ∧
      (buildEnvVars env).moltbot_gateway_token = none ∧
      ((buildEnvVars env).clawdbot_gateway_token.isSome = true →
        (getNE env.moltbot_gateway_token).isSome = true) ∧
      ((buildEnvVars env).telegram_bot_token.isSome = true →
        (getNE env.telegram_bot_token).isSome = true) ∧
      ((buildEnvVars env).telegram_dm_policy.isSome = true →
        (getNE env.telegram_dm_policy).isSome = true) ∧
      ((buildEnvVars env).discord_bot_token.isSome = true →
        (getNE env.discord_bot_token).isSome = true) ∧
      ((buildEnvVars env).discord_dm_policy.isSome = true →
        (getNE env.discord_dm_policy).isSome = true) ∧
      ((buildEnvVars env).slack_bot_token.isSome = true →
        (getNE env.slack_bot_token).isSome = true) ∧
      ((buildEnvVars env).slack_app_token.isSome = true →
        (getNE env.slack_app_token).isSome = true) ∧
      (buildEnvVars env).dev_mode = none ∧
      ((buildEnvVars env).clawdbot_dev_mode.isSome = true →
        (getNE env.dev_mode).isSome = true) ∧
      ((buildEnvVars env).clawdbot_bind_mode.isSome = true →
        (getNE env.clawdbot_bind_mode).isSome = true) ∧
      (env.ai_gateway_model = some "" → (buildEnvVars env).ai_gateway_model = none) := by
  refine ⟨by decide, fun env => ?_⟩
  refine ⟨?_, ?_, ?_, ?_, ?_, ?_, ?_, ?_, ?_, ?_, ?_,
    ?_, ?_, ?_, ?_, ?_, ?_, ?_, ?_, ?_, ?_⟩
  · cases hgw : getNE env.ai_gateway_api_key with
    | none =>
      intro h
      simp only [buildEnvVars, hgw] at h
      exact Or.inl h
    | some k =>
      intro h
      exact Or.inr rfl
  · cases hgw : getNE env.ai_gateway_api_key with
    | none =>
      intro h
      simp only [buildEnvVars, hgw] at h
      exact Or.inl h
    | some k =>
      cases hs : selectSlot env with
      | none =>
        intro h
        simp only [buildEnvVars, hgw, hs] at h
        exact Or.inl h
      | some slot =>
        cases slot with
        | anthropic =>
          intro h
          simp only [buildEnvVars, hgw, hs] at h
          exact Or.inr (normGatewayUrl_isSome _ h)
        | openai =>
          intro h
          simp only [buildEnvVars, hgw, hs] at h
          simp at h
  · cases hgw : getNE env.ai_gateway_api_key with
    | none =>
      intro h
      simp only [buildEnvVars, hgw] at h
      exact Or.inl h
    | some k =>
      intro h
      exact Or.inr rfl
  · cases hgw : getNE env.ai_gateway_api_key with
    | none =>
      intro h
      simp only [buildEnvVars, hgw] at h
      exact Or.inl h
    | some k =>
      cases hs : selectSlot env with
      | none =>
        intro h
        simp only [buildEnvVars, hgw, hs] at h
        exact Or.inl h
      | some slot =>
        cases slot with
        | anthropic =>
          intro h
          simp only [buildEnvVars, hgw, hs] at h
          simp at h
        | openai =>
          intro h
          simp only [buildEnvVars, hgw, hs] at h
          exact Or.inr (normGatewayUrl_isSome _ h)
  · simp [buildEnvVars]
  · cases hgw : getNE env.ai_gateway_api_key with
    | none =>
      intro h
      simp only [buildEnvVars, hgw] at h
      exact h
    | some k =>
      cases hs : selectSlot env with
      | none =>
        intro h
        simp only [buildEnvVars, hgw, hs] at h
        exact h
      | some slot =>
        cases slot with
        | anthropic =>
          intro h
          simp only [buildEnvVars, hgw, hs] at h
          exact normGatewayUrl_isSome _ h
        | openai =>
          intro h
          simp only [buildEnvVars, hgw, hs] at h
          exact normGatewayUrl_isSome _ h
  · intro h
    simp only [buildEnvVars] at h
    exact h
  · intro h
    simp only [buildEnvVars] at h
    exact h
  · intro h
    simp only [buildEnvVars] at h
    exact h
  · simp [buildEnvVars]
  · intro h
    simp only [buildEnvVars] at h
    exact h
  · intro h
    simp only [buildEnvVars] at h
    exact h
  · intro h
    simp only [buildEnvVars] at h
    exact h
  · intro h
    simp only [buildEnvVars] at h
    exact h
  · intro h
    simp only [buildEnvVars] at h
    exact h
  · intro h
    simp only [buildEnvVars] at h
    exact h
  · intro h
    simp only [buildEnvVars] at h
    exact h
  · simp [buildEnvVars]
  · intro h
    simp only [buildEnvVars] at h
    exact h
  · intro h
    simp only [buildEnvVars] at h
    exact h
  · intro h
    simp [buildEnvVars, h, getNE]

/-- Witness for C8: presence of the directly supplied Anthropic key in the
output certifies its presence among the non-empty inputs. -/
theorem c8_no_defaults_witness :
    (getNE ({ anthropic_api_key := some "sk-test-key" } : Env).anthropic_api_key).isSome =
      true ∨
    (getNE ({ anthropic_api_key := some "sk-test-key" } : Env).ai_gateway_api_key).isSome =
      true :=
  (c8_no_defaults.2 { anthropic_api_key := some "sk-test-key" }).1 (by decide)

/-- C9 is false as stated: a structurally invalid gateway base URL carrying
trailing slashes and a slot suffix, here `not-a-valid-url/openai/`, is not
passed through raw: slot selection normalizes away its trailing slash. -/
theorem c9_counterexample :
    (buildEnvVars
      { ai_gateway_api_key := some "key",
        ai_gateway_base_url := some "not-a-valid-url/openai/" }).ai_gateway_base_url =
      some "not-a-valid-url/openai" ∧
    ("not-a-valid-url/openai" : String) ≠ "not-a-valid-url/openai/" := by
  constructor
  · decide
  · decide

/-- C9 (amended): resolution is a total function that never inspects URL
validity, and every present gateway base-URL value without trailing
slashes -- structurally valid or not -- reappears verbatim under the
gateway base-URL output key; trailing-slash stripping is the only
transformation ever applied. -/
theorem c9_url_passthrough (env : Env) (u : String)
    (hu : getNE env.ai_gateway_base_url = some u)
    (hslash : isSuf ['/'] u.data = false) :
    (buildEnvVars env).ai_gateway_base_url = some u := by
  have hne : u ≠ "" := (getNE_eq_some _ _ hu).2
  have hstrip : stripTrailingSlashes u = u :=
    stripTrailingSlashes_of_last_ne u (last_not_slash_of_isSuf_false u hslash)
  cases hgw : getNE env.ai_gateway_api_key with
  | none => simp [buildEnvVars, hgw, hu]
  | some k =>
    cases hs : selectSlot env with
    | none => simp [buildEnvVars, hgw, hs, hu]
    | some slot =>
      cases slot <;>
        simp [buildEnvVars, hgw, hs, normGatewayUrl, hu, hstrip,
          getNE_some_of_ne _ hne]

/-- Witness for C9 at the test scenario with the malformed URL
`not-a-valid-url`. -/
theorem c9_url_passthrough_witness :
    (buildEnvVars
      { ai_gateway_api_key := some "key",
        ai_gateway_base_url := some "not-a-valid-url" }).ai_gateway_base_url =
      some "not-a-valid-url" :=
  c9_url_passthrough
    { ai_gateway_api_key := some "key",
      ai_gateway_base_url := some "not-a-valid-url" }
    "not-a-valid-url" (by decide) (by decide)

/-- C10: the raw input keys `MOLTBOT_GATEWAY_TOKEN` and `DEV_MODE` never
appear in any resolved environment; their non-empty values surface only
under the renamed keys `CLAWDBOT_GATEWAY_TOKEN` and `CLAWDBOT_DEV_MODE`. -/
theorem c10_rename_only (env : Env) :
    (buildEnvVars env).moltbot_gateway_token = none ∧
    (buildEnvVars env).dev_mode = none ∧
    (∀ v, getNE env.moltbot_gateway_token = some v →
      (buildEnvVars env).clawdbot_gateway_token = some v) ∧
    (∀ v, getNE env.dev_mode = some v →
      (buildEnvVars env).clawdbot_dev_mode = some v) := by
  refine ⟨by simp [buildEnvVars], by simp [buildEnvVars], ?_, ?_⟩
  · intro v h
    simp only [buildEnvVars]
    exact h
  · intro v h
    simp only [buildEnvVars]
    exact h

/-- Witness for C10 at the rename scenario of the test suite. -/
theorem c10_rename_only_witness :
    (buildEnvVars { moltbot_gateway_token := some "my-token" }).moltbot_gateway_token =
      none ∧
    (buildEnvVars { moltbot_gateway_token := some "my-token" }).clawdbot_gateway_token =
      some "my-token" :=
  ⟨(c10_rename_only { moltbot_gateway_token := some "my-token" }).1,
   (c10_rename_only { moltbot_gateway_token := some "my-token" }).2.2.1
     "my-token" (by decide)⟩

end ClawdBot

